import Mathlib

/-!
Verification of the recording-window resolution engine of `tc2-config`
(`src/main.rs`): the time-spec parser `from_time_abs_or_rel_str`, the
bound resolution `AbsRelTime::time_offset`, the continuous-recorder test
`DeviceConfig::is_continuous_recorder`, and the window construction
`DeviceConfig::next_recording_window` / `time_is_in_recording_window`.

Modelling conventions:
* `NaiveDateTime` values are integers counting seconds; `NaiveDate`
  values are integers counting days, so `NaiveDateTime::date()` is floor
  division by 86400 and `Duration::days(1)` is 86400 seconds.
* Rust `i32` arithmetic that can overflow is modelled with an explicit
  two's-complement wrap `wrap32`; `x as u8` is the low byte `u8_of_i32`;
  Rust `%` on `i32` is truncated remainder `Int.tmod`.
* The sunrise/sunset ephemeris `sun_times` lives in the `sun_times`
  module, which is external to the resolution engine; it is passed in as
  an explicit function `SunTimesFn` from a date (day number) to the
  optional pair (sunrise, sunset) at the configuration's location.  The
  `f32`/`f64` latitude, longitude and altitude values are consumed only
  by that external function, so the `LocationSettings` coordinates are
  abstracted to an opaque numeric carrier; the engine itself only tests
  them for presence.
* `timezone_offset_seconds()` reads the host's local timezone from
  ambient process state (`Local::now()`); it is modelled as the explicit
  parameter `tz_offset_seconds` threaded through every call.
* Rust panics (`expect`, `unwrap`, `panic!`) are modelled as the typed
  outcome `RunError.panicked msg`, and fallible functions return
  `Except`.
-/

/-- Rust `i32` two's-complement wrapping of an integer. -/
def wrap32 (n : Int) : Int :=
  (n + 2147483648) % 4294967296 - 2147483648

/-- Rust `x as u8` for an `i32` value `x`: the low byte. -/
def u8_of_i32 (n : Int) : Nat :=
  (n % 256).toNat

/-- Numeric value of a decimal digit character, if it is one. -/
def digit_val (c : Char) : Option Nat :=
  if '0' ≤ c ∧ c ≤ '9' then some (c.toNat - '0'.toNat) else none

/-- Decimal value of a non-empty all-digit character run, else `none`. -/
def parse_digits (cs : List Char) : Option Nat :=
  if cs.isEmpty then none
  else
    cs.foldl
      (fun acc c =>
        match acc, digit_val c with
        | some n, some d => some (n * 10 + d)
        | _, _ => none)
      (some 0)

/-- Rust `i32::from_str_radix(s, 10)`: an optional single leading sign,
then at least one digit, with the result required to fit in `i32`. -/
def i32_from_str (cs : List Char) : Option Int :=
  match cs with
  | '+' :: rest =>
    (parse_digits rest).bind fun n =>
      if (n : Int) ≤ 2147483647 then some (n : Int) else none
  | '-' :: rest =>
    (parse_digits rest).bind fun n =>
      if (n : Int) ≤ 2147483648 then some (-(n : Int)) else none
  | _ =>
    (parse_digits cs).bind fun n =>
      if (n : Int) ≤ 2147483647 then some (n : Int) else none

/-- Wall-clock hour and minute (`HourMin` in `main.rs`); the Rust fields
are `u8`, and the parser only ever stores values below 256. -/
structure HourMin where
  hour : Nat
  min : Nat
deriving DecidableEq

/-- A parsed time bound (`AbsRelTime` in `main.rs`): an optional
absolute wall-clock time and an optional relative offset in seconds. -/
structure AbsRelTime where
  absolute_time : Option HourMin
  relative_time_seconds : Option Int
deriving DecidableEq

/-- One token of the time-spec scanner (`NumberString` in `main.rs`):
the accumulated sign/digit characters, the optional unit letter, and the
is-relative flag. -/
structure NumberString where
  digits : List Char
  unit : Option Char
  is_relative : Bool
deriving DecidableEq

/-- The character scanner of `from_time_abs_or_rel_str` (`main.rs`
lines 190-239).  The token list is kept in reverse order so that the
source's `tokens.last_mut()` is the head; the result is reversed back at
the end. -/
def tokenize (toks : List NumberString) : List Char → Except String (List NumberString)
  | [] => .ok toks.reverse
  | c :: rest =>
    if c = '-' ∨ c = '+' ∨ ('0' ≤ c ∧ c ≤ '9') then
      match toks with
      | t :: ts => tokenize ({ t with digits := t.digits ++ [c] } :: ts) rest
      | [] => tokenize [⟨[c], none, true⟩] rest
    else if c = 's' ∨ c = 'h' ∨ c = 'm' ∨ c = 'z' then
      match toks with
      | t :: ts => tokenize (⟨[], none, true⟩ :: { t with unit := some c } :: ts) rest
      | [] => .error "unit specifier before integer"
    else if c = ':' then
      match toks with
      | t :: ts =>
        let count := (t :: ts).length
        let u : Option Char :=
          if count = 1 then some 'h'
          else if count = 2 then some 'm'
          else if count = 3 then some 's'
          else t.unit
        tokenize (⟨[], none, false⟩ :: { t with unit := u, is_relative := false } :: ts) rest
      | [] => .error "colon before hour specifier"
    else .error "unexpected token"

/-- One step of the token-accumulation loop of `from_time_abs_or_rel_str`
(`main.rs` lines 242-284), updating the running pair
(relative seconds, absolute time). -/
def apply_token (st : Option Int × Option HourMin) (t : NumberString) :
    Option Int × Option HourMin :=
  let rel := if t.is_relative then (if st.1.isNone then some 0 else st.1) else st.1
  let absolute := if t.is_relative then st.2 else (if st.2.isNone then some ⟨0, 0⟩ else st.2)
  match rel with
  | some seconds =>
    match i32_from_str t.digits with
    | some num =>
      let mul : Int :=
        match t.unit with
        | some 's' => 1
        | some 'm' => 60
        | some 'h' => 3600
        | some _ => 1
        | none => 60
      let num := wrap32 (num * mul)
      let seconds :=
        if seconds < 0 ∧ num > 0 then wrap32 (seconds + wrap32 (-num))
        else wrap32 (seconds + num)
      (some seconds, absolute)
    | none => (some seconds, absolute)
  | none =>
    match absolute with
    | some hm =>
      match i32_from_str t.digits with
      | some num =>
        match t.unit with
        | some 'm' => (rel, some { hm with min := u8_of_i32 num })
        | some 'h' => (rel, some { hm with hour := u8_of_i32 num })
        | some _ => (rel, absolute)
        | none => (rel, some { hm with min := u8_of_i32 num })
      | none => (rel, absolute)
    | none => (rel, absolute)

/-- The time-spec parser `from_time_abs_or_rel_str` (`main.rs`
lines 181-293): scan the string into tokens, accumulate them, and fail
when neither an absolute nor a relative component was produced. -/
def from_time_abs_or_rel_str (s : String) : Except String AbsRelTime :=
  match tokenize [] s.data with
  | .error e => .error e
  | .ok toks =>
    let acc := toks.foldl apply_token (none, none)
    if acc.2.isNone && acc.1.isNone then
      .error ("Failed to parse window time: " ++ s)
    else
      .ok ⟨acc.2, acc.1⟩

/-- Typed outcome of a Rust panic (`expect`, `unwrap`, `panic!`). -/
inductive RunError where
  | panicked (msg : String)
deriving DecidableEq

/-- Location block of the configuration (`LocationSettings` in
`main.rs`).  The engine only tests latitude/longitude for presence (the
`f32` values feed only the external `sun_times`), so the coordinate
carrier is abstracted to `Int`. -/
structure LocationSettings where
  latitude : Option Int
  longitude : Option Int
  altitude : Option Int
deriving DecidableEq

/-- The recording window configuration (`TimeWindow` in `main.rs`). -/
structure TimeWindow where
  start_recording : AbsRelTime
  stop_recording : AbsRelTime
deriving DecidableEq

/-- The recorder settings the engine consults
(`ThermalRecordingSettings` in `main.rs`, restricted to the fields the
window-resolution engine reads). -/
structure ThermalRecordingSettings where
  constant_recorder : Bool
  use_low_power_mode : Bool
deriving DecidableEq

/-- Device configuration (`DeviceConfig` in `main.rs`, restricted to
the fields the window-resolution engine reads). -/
structure DeviceConfig where
  recording_window : TimeWindow
  recording_settings : ThermalRecordingSettings
  location : Option LocationSettings
deriving DecidableEq

/-- The external solar ephemeris `sun_times` at the configuration's
location: a date (day number) to the optional `(sunrise, sunset)`
instants in seconds.  The engine receives it as an explicit function. -/
abbrev SunTimesFn := Int → Option (Int × Int)

/-- `NaiveDateTime::date()`: the day number of a timestamp, by floor
division. -/
def date_of (t : Int) : Int :=
  t.fdiv 86400

/-- `AbsRelTime::time_offset` (`main.rs` lines 384-401): the absolute or
relative time in seconds in the day, with the flag saying which.  The
absolute case converts local wall-clock seconds past midnight to UTC by
subtracting the timezone offset — which the Rust code reads from ambient
host state via `timezone_offset_seconds()` and which is here the
explicit parameter `tz_offset_seconds` — and reduces with Rust `%`
(truncated remainder).  The relative case unwraps
`relative_time_seconds`, a panic when it is also absent. -/
def AbsRelTime.time_offset (t : AbsRelTime) (tz_offset_seconds : Int) :
    Except RunError (Bool × Int) :=
  match t.absolute_time with
  | some hm =>
    let seconds_past_midnight : Int := hm.hour * 3600 + hm.min * 60
    .ok (true, (seconds_past_midnight - tz_offset_seconds).tmod 86400)
  | none =>
    match t.relative_time_seconds with
    | some r => .ok (false, r)
    | none => .error (.panicked "called Option::unwrap on a None value")

/-- `DeviceConfig::is_continuous_recorder` (`main.rs` lines 541-550):
the explicit constant-recorder flag, or both bounds absolute and the two
bounds equal. -/
def DeviceConfig.is_continuous_recorder (c : DeviceConfig) : Bool :=
  c.recording_settings.constant_recorder ||
    (c.recording_window.start_recording.absolute_time.isSome &&
     c.recording_window.stop_recording.absolute_time.isSome &&
     decide (c.recording_window.start_recording = c.recording_window.stop_recording))

/-- The relative-bound block of `next_recording_window` (`main.rs`
lines 604-673): require a location with latitude and longitude (each
absence is an `expect` panic), fetch sun times for yesterday, today and
tomorrow (each `unwrap` panics on `None`), shift every sunset by the
start offset and every sunrise by the end offset, and pick the candidate
window, fetching the sunrise two days out in the first branch; if no
candidate condition matches, the code hits `panic!`. -/
def solar_window (loc : Option LocationSettings) (st : SunTimesFn)
    (start_offset end_offset now : Int) : Except RunError (Int × Int) :=
  match loc with
  | none => .error (.panicked "Relative recording windows require a location")
  | some location =>
    match location.latitude, location.longitude with
    | none, _ => .error (.panicked "Relative recording windows require a valid latitude")
    | some _, none => .error (.panicked "Relative recording windows require a valid longitude")
    | some _, some _ =>
      match st (date_of (now - 86400)), st (date_of now), st (date_of (now + 86400)) with
      | some y, some t, some m =>
        let yesterday_sunset := y.2 + start_offset
        let today_sunrise := t.1 + end_offset
        let today_sunset := t.2 + start_offset
        let tomorrow_sunrise := m.1 + end_offset
        let tomorrow_sunset := m.2 + start_offset
        if now > today_sunset ∧ now > tomorrow_sunrise then
          match st (date_of (now + 2 * 86400)) with
          | some two => .ok (tomorrow_sunset, two.1 + end_offset)
          | none => .error (.panicked "called Option::unwrap on a None value")
        else if (now > today_sunset ∧ now < tomorrow_sunrise) ∨
                (now < today_sunset ∧ now > today_sunrise) then
          .ok (today_sunset, tomorrow_sunrise)
        else if now < tomorrow_sunset ∧ now < today_sunrise ∧ now > yesterday_sunset then
          .ok (yesterday_sunset, today_sunrise)
        else .error (.panicked "Unable to calculate relative time window")
      | none, _, _ => .error (.panicked "called Option::unwrap on a None value")
      | _, none, _ => .error (.panicked "called Option::unwrap on a None value")
      | _, _, none => .error (.panicked "called Option::unwrap on a None value")

/-- The day-boundary correction of `next_recording_window` (`main.rs`
lines 695-726), applied whenever at least one bound is absolute: the
sequential plus/minus-one-day adjustments of the naive window. -/
def day_boundary_correction (absolute_start absolute_end : Bool)
    (start_time end_time now : Int) : Int × Int :=
  if absolute_start || absolute_end then
    let start_minus_one_day := start_time - 86400
    let start_plus_one_day := start_time + 86400
    let end_minus_one_day := end_time - 86400
    let end_plus_one_day := end_time + 86400
    let end_minus_one_day :=
      if start_minus_one_day > end_minus_one_day then end_minus_one_day + 86400
      else end_minus_one_day
    let start_plus_one_day :=
      if start_plus_one_day > end_plus_one_day then start_time else start_plus_one_day
    let start_time1 :=
      if end_minus_one_day > now ∧ absolute_start then start_minus_one_day else start_time
    let end_time1 :=
      if end_minus_one_day > now ∧ absolute_end then end_minus_one_day else end_time
    let end_time2 :=
      if end_time1 < start_time1 ∧ absolute_end then end_plus_one_day else end_time1
    let start_time2 :=
      if now > end_time2 ∧ absolute_start then start_plus_one_day else start_time1
    let end_time3 :=
      if now > end_time2 ∧ absolute_end then end_plus_one_day else end_time2
    (start_time2, end_time3)
  else (start_time, end_time)

/-- The body of `next_recording_window` after the two `time_offset`
calls (`main.rs` lines 598-727): normalize negative absolute offsets
into the day, run the relative-bound block when either bound is
relative, anchor each absolute bound on today's date, and apply the
day-boundary correction.  In the source the solar results travel in
`Option`s that are `unwrap`ped exactly when the corresponding bound is
relative, which is the path on which they were filled, so the pair is
passed directly. -/
def next_recording_window_from (loc : Option LocationSettings) (st : SunTimesFn)
    (absolute_start : Bool) (start_offset0 : Int)
    (absolute_end : Bool) (end_offset0 : Int) (now : Int) :
    Except RunError (Int × Int) :=
  let end_offset :=
    if absolute_end ∧ end_offset0 < 0 then 86400 + end_offset0 else end_offset0
  let start_offset :=
    if absolute_start ∧ start_offset0 < 0 then 86400 + start_offset0 else start_offset0
  if !absolute_start || !absolute_end then
    match solar_window loc st start_offset end_offset now with
    | .error e => .error e
    | .ok w =>
      let start_time := if !absolute_start then w.1 else date_of now * 86400 + start_offset
      let end_time := if !absolute_end then w.2 else date_of now * 86400 + end_offset
      .ok (day_boundary_correction absolute_start absolute_end start_time end_time now)
  else
    let start_time := date_of now * 86400 + start_offset
    let end_time := date_of now * 86400 + end_offset
    .ok (day_boundary_correction absolute_start absolute_end start_time end_time now)

/-- `DeviceConfig::next_recording_window` (`main.rs` lines 594-728):
resolve both bounds with `time_offset` and hand them to the window
construction. -/
def DeviceConfig.next_recording_window (c : DeviceConfig) (now : Int)
    (st : SunTimesFn) (tz_offset_seconds : Int) : Except RunError (Int × Int) :=
  match c.recording_window.start_recording.time_offset tz_offset_seconds with
  | .error e => .error e
  | .ok s =>
    match c.recording_window.stop_recording.time_offset tz_offset_seconds with
    | .error e => .error e
    | .ok e => next_recording_window_from c.location st s.1 s.2 e.1 e.2 now

/-- `DeviceConfig::time_is_in_recording_window` (`main.rs`
lines 755-786): `true` immediately for a continuous recorder, otherwise
`start <= now <= end` for the resolved window. -/
def DeviceConfig.time_is_in_recording_window (c : DeviceConfig) (now : Int)
    (st : SunTimesFn) (tz_offset_seconds : Int) : Except RunError Bool :=
  if c.is_continuous_recorder then .ok true
  else
    match c.next_recording_window now st tz_offset_seconds with
    | .error e => .error e
    | .ok w => .ok (decide (w.1 ≤ now ∧ now ≤ w.2))

/-- Bound on the absolute component of a parser accumulation state: any
stored `HourMin` has both bytes below 256. -/
def hm_bounded (o : Option HourMin) : Prop :=
  ∀ hm, o = some hm → hm.hour < 256 ∧ hm.min < 256

/-- An ephemeris with no sunrise/sunset data; used with configurations
whose bounds are both absolute, which never consult it. -/
def sun_absent : SunTimesFn := fun _ => none

/-- A schematic ephemeris: sunrise 06:00 UTC and sunset 19:00 UTC on
every day. -/
def sun_flat : SunTimesFn := fun d => some (d * 86400 + 21600, d * 86400 + 68400)

/-- A degenerate ephemeris whose events sit near the epoch, giving a
date where no candidate-window condition matches. -/
def sun_tiny : SunTimesFn := fun _ => some (5, 10)

/-- The wrap-around configuration of `tests/absolute_times.rs`
(`test_start_greater_than_end`): `start-recording = "22:10"`,
`stop-recording = "9:50"`. -/
def wrap_window_config : DeviceConfig :=
  ⟨⟨⟨some ⟨22, 10⟩, none⟩, ⟨some ⟨9, 50⟩, none⟩⟩, ⟨false, false⟩, none⟩

/-- An absolute start at 10:00 with a relative stop of -20 hours (the
parser accepts `"-20h"`), at a location with coordinates present. -/
def mixed_inverted_config : DeviceConfig :=
  ⟨⟨⟨some ⟨10, 0⟩, none⟩, ⟨none, some (-72000)⟩⟩, ⟨false, false⟩,
    some ⟨some 0, some 0, some 0⟩⟩

/-- The default recording window (`default_recording_start_time` /
`default_recording_stop_time`: 30 minutes before sunset to 30 minutes
after sunrise) with no location configured. -/
def no_location_relative_config : DeviceConfig :=
  ⟨⟨⟨none, some (-1800)⟩, ⟨none, some 1800⟩⟩, ⟨false, false⟩, none⟩

/-- Relative bounds with zero offsets and a complete location. -/
def unresolvable_config : DeviceConfig :=
  ⟨⟨⟨none, some 0⟩, ⟨none, some 0⟩⟩, ⟨false, false⟩,
    some ⟨some 0, some 0, some 0⟩⟩

/-- The degenerate configuration of `tests/absolute_times.rs`
(`test_same_start_end`): `start-recording = "15:04"`,
`stop-recording = "15:04"`. -/
def same_start_end_config : DeviceConfig :=
  ⟨⟨⟨some ⟨15, 4⟩, none⟩, ⟨some ⟨15, 4⟩, none⟩⟩, ⟨false, false⟩, none⟩

/-- A configuration with both bounds relative (one hour before sunset to
two hours after sunrise, as in `tests/relative_times.rs`) and a complete
location. -/
def relative_pair_config : DeviceConfig :=
  ⟨⟨⟨none, some (-3600)⟩, ⟨none, some 7200⟩⟩, ⟨false, false⟩,
    some ⟨some 0, some 0, some 0⟩⟩

/-- Truncated remainder by a day negates with its argument. -/
theorem neg_tmod_day (a : Int) : (-a).tmod 86400 = -(a.tmod 86400) := by
  rw [Int.tmod_def, Int.tmod_def, Int.neg_tdiv]
  ring

/-- Truncated remainder by a day lies strictly between minus a day and a
day. -/
theorem tmod_day_bounds (a : Int) : -86400 < a.tmod 86400 ∧ a.tmod 86400 < 86400 := by
  refine ⟨?_, Int.tmod_lt_of_pos a (by norm_num)⟩
  rcases le_or_lt 0 a with h | h
  · have := Int.tmod_nonneg 86400 h
    omega
  · have h1 : a.tmod 86400 = -((-a).tmod 86400) := by rw [neg_tmod_day]; ring
    have h2 := Int.tmod_lt_of_pos (-a) (b := 86400) (by norm_num)
    omega

/-- A timestamp lies inside the day that `date_of` assigns to it. -/
theorem date_of_bounds (t : Int) : date_of t * 86400 ≤ t ∧ t < date_of t * 86400 + 86400 := by
  unfold date_of
  rw [Int.fdiv_eq_ediv t (by norm_num)]
  have h1 := Int.ediv_add_emod t 86400
  have h2 := Int.emod_nonneg t (b := 86400) (by norm_num)
  have h3 := Int.emod_lt_of_pos t (b := 86400) (by norm_num)
  omega

/-- When both bounds are absolute and the naive window endpoints lie in
one common day, the day-boundary correction yields an ordered pair. -/
theorem day_boundary_correction_le (s e now d : Int)
    (hs : d ≤ s ∧ s < d + 86400) (he : d ≤ e ∧ e < d + 86400) :
    (day_boundary_correction true true s e now).1 ≤
      (day_boundary_correction true true s e now).2 := by
  simp only [day_boundary_correction, Bool.or_self, if_true, and_true]
  split_ifs <;> simp_all <;> omega

/-- With two absolute bounds whose raw offsets lie strictly between
minus a day and a day, window construction succeeds and is ordered. -/
theorem next_from_abs_abs (loc : Option LocationSettings) (st : SunTimesFn)
    (so0 eo0 now : Int) (hso : -86400 < so0 ∧ so0 < 86400)
    (heo : -86400 < eo0 ∧ eo0 < 86400) :
    ∃ s e, next_recording_window_from loc st true so0 true eo0 now = .ok (s, e) ∧ s ≤ e := by
  simp only [next_recording_window_from, Bool.not_true, Bool.or_self, true_and]
  refine ⟨_, _, rfl, ?_⟩
  have hb := date_of_bounds now
  apply day_boundary_correction_le _ _ now (date_of now * 86400)
  · constructor <;> split_ifs <;> omega
  · constructor <;> split_ifs <;> omega

/-- Unfolding `time_offset` on an absolute bound. -/
theorem time_offset_abs (t : AbsRelTime) (hm : HourMin) (tz : Int)
    (h : t.absolute_time = some hm) :
    t.time_offset tz =
      .ok (true, ((hm.hour * 3600 + hm.min * 60 : Int) - tz).tmod 86400) := by
  unfold AbsRelTime.time_offset
  rw [h]

/-- `time_offset` on a bound with no absolute component never reads the
timezone offset. -/
theorem time_offset_tz_free (t : AbsRelTime) (h : t.absolute_time = none) (tz tz' : Int) :
    t.time_offset tz = t.time_offset tz' := by
  unfold AbsRelTime.time_offset
  rw [h]

/-- The low byte of an `i32` is below 256. -/
theorem u8_of_i32_lt (n : Int) : u8_of_i32 n < 256 := by
  unfold u8_of_i32
  omega

/-- One accumulation step preserves the byte bounds of the absolute
component. -/
theorem apply_token_bounded (st : Option Int × Option HourMin) (t : NumberString)
    (h : hm_bounded st.2) : hm_bounded (apply_token st t).2 := by
  unfold apply_token
  have habs : hm_bounded
      (if t.is_relative then st.2 else (if st.2.isNone then some ⟨0, 0⟩ else st.2)) := by
    split_ifs with h1 h2
    · exact h
    · intro hm hmeq
      injection hmeq with hmeq
      subst hmeq
      exact ⟨by norm_num, by norm_num⟩
    · exact h
  dsimp only
  split
  · split
    · exact habs
    · exact habs
  · split
    · rename_i hm hsome
      split
      · rename_i num hnum
        split
        · intro hm' heq
          injection heq with heq
          subst heq
          exact ⟨(habs _ hsome).1, u8_of_i32_lt _⟩
        · intro hm' heq
          injection heq with heq
          subst heq
          exact ⟨u8_of_i32_lt _, (habs _ hsome).2⟩
        · exact habs
        · intro hm' heq
          injection heq with heq
          subst heq
          exact ⟨(habs _ hsome).1, u8_of_i32_lt _⟩
      · exact habs
    · exact habs

/-- The whole accumulation loop preserves the byte bounds of the
absolute component. -/
theorem foldl_apply_token_bounded (toks : List NumberString)
    (st : Option Int × Option HourMin) (h : hm_bounded st.2) :
    hm_bounded (toks.foldl apply_token st).2 := by
  induction toks generalizing st with
  | nil => exact h
  | cons t ts ih => exact ih _ (apply_token_bounded st t h)

/-- Claim C1: the spec requires that a relative bound without a location
yield the typed error `ResolveError::LocationRequired`, that an
unmatched candidate set yield `ResolveError::Unresolvable`, and that the
engine never panic.  The code has no `ResolveError` type at all: with
relative bounds and no location, `next_recording_window` dies in
`Option::expect("Relative recording windows require a location")`
(`main.rs` line 608), and when no candidate-window condition matches it
dies in `panic!("Unable to calculate relative time window")` (`main.rs`
line 672); `load_from_fs` even calls `std::process::exit(1)` on a
missing location.  This theorem evaluates both failing inputs. -/
theorem c1_engine_panics_not_typed_errors :
    no_location_relative_config.next_recording_window 0 sun_absent 0 =
      .error (.panicked "Relative recording windows require a location") ∧
    unresolvable_config.next_recording_window 10 sun_tiny 0 =
      .error (.panicked "Unable to calculate relative time window") :=
  ⟨rfl, rfl⟩

/-- Claim C2: relative parsing follows the sign-propagation rule — once
the running sum is negative, later unsigned magnitudes are subtracted —
so `"-1h20m"` parses to -4800 seconds, `"30m"` to 1800 seconds and
`"-1h45m"` to -6300 seconds, each a purely relative `AbsRelTime`. -/
theorem c2_sign_propagation :
    from_time_abs_or_rel_str "-1h20m" = .ok ⟨none, some (-4800)⟩ ∧
    from_time_abs_or_rel_str "30m" = .ok ⟨none, some 1800⟩ ∧
    from_time_abs_or_rel_str "-1h45m" = .ok ⟨none, some (-6300)⟩ :=
  ⟨rfl, rfl, rfl⟩

/-- Claim C3: for the wrap-around configuration `start=22:10`,
`stop=09:50` (parsed exactly as in `wrap_window_config`) under the fixed
UTC offset +13:00 (46800 seconds), on the day with index 19724: at
local 23:59 the device is active and the window ends 591 minutes later;
at local 00:01 it is active and the window ends 589 minutes later; at
local 09:51 it is not active and the next window starts 739 minutes
later. -/
theorem c3_wrap_around_window :
    from_time_abs_or_rel_str "22:10" = .ok wrap_window_config.recording_window.start_recording ∧
    from_time_abs_or_rel_str "9:50" = .ok wrap_window_config.recording_window.stop_recording ∧
    (wrap_window_config.time_is_in_recording_window 1704193140 sun_absent 46800 = .ok true ∧
      wrap_window_config.next_recording_window 1704193140 sun_absent 46800 =
        .ok (1704186600, 1704228600) ∧ (1704228600 - 1704193140 : Int) = 591 * 60) ∧
    (wrap_window_config.time_is_in_recording_window 1704106860 sun_absent 46800 = .ok true ∧
      wrap_window_config.next_recording_window 1704106860 sun_absent 46800 =
        .ok (1704100200, 1704142200) ∧ (1704142200 - 1704106860 : Int) = 589 * 60) ∧
    (wrap_window_config.time_is_in_recording_window 1704142260 sun_absent 46800 = .ok false ∧
      wrap_window_config.next_recording_window 1704142260 sun_absent 46800 =
        .ok (1704186600, 1704228600) ∧ (1704186600 - 1704142260 : Int) = 739 * 60) :=
  ⟨rfl, rfl, ⟨rfl, rfl, by norm_num⟩, ⟨rfl, rfl, by norm_num⟩, ⟨rfl, rfl, by norm_num⟩⟩

/-- Claim C4 counterexample: the claim says two calls with identical
explicit arguments produce identical results regardless of the host
environment's timezone.  The UTC offset for absolute bounds is read from
ambient host state (`timezone_offset_seconds()` calls `Local::now()`),
so the very same `(now, config, location)` is active under a +13:00 host
timezone and inactive under a UTC host timezone. -/
theorem c4_counterexample_host_timezone_dependence :
    wrap_window_config.time_is_in_recording_window 1704193140 sun_absent 46800 = .ok true ∧
    wrap_window_config.time_is_in_recording_window 1704193140 sun_absent 0 = .ok false :=
  ⟨rfl, rfl⟩

/-- Claim C4 as amended: `now` is an explicit parameter, but the local
UTC offset is ambient host state; holding it fixed as the explicit
parameter of this embedding makes the engine a pure function, and a
configuration whose bounds are both relative never reads it, so such
configurations resolve identically under any two host timezones. -/
theorem c4_amended_offset_explicit_param (c : DeviceConfig) (now : Int)
    (st : SunTimesFn) (tz tz' : Int)
    (hs : c.recording_window.start_recording.absolute_time = none)
    (he : c.recording_window.stop_recording.absolute_time = none) :
    c.next_recording_window now st tz = c.next_recording_window now st tz' := by
  unfold DeviceConfig.next_recording_window
  rw [time_offset_tz_free _ hs tz tz', time_offset_tz_free _ he tz tz']

/-- Claim C4 witness: the amended theorem applied to the all-relative
configuration under the +13:00 and UTC host offsets. -/
theorem c4_amended_offset_explicit_param_witness :
    relative_pair_config.recording_window.start_recording.absolute_time = none ∧
    relative_pair_config.recording_window.stop_recording.absolute_time = none ∧
    relative_pair_config.next_recording_window 43200 sun_flat 46800 =
      relative_pair_config.next_recording_window 43200 sun_flat 0 :=
  ⟨rfl, rfl, c4_amended_offset_explicit_param relative_pair_config 43200 sun_flat 46800 0 rfl rfl⟩

/-- Claim C5: when the explicit constant-recorder flag is set, or both
bounds are absolute and equal, `time_is_in_recording_window` returns
true for every `now` (and for every ephemeris and timezone offset),
bypassing window resolution. -/
theorem c5_continuous_always_active (c : DeviceConfig) (now : Int)
    (st : SunTimesFn) (tz : Int)
    (h : c.recording_settings.constant_recorder = true ∨
      (c.recording_window.start_recording.absolute_time.isSome = true ∧
       c.recording_window.stop_recording.absolute_time.isSome = true ∧
       c.recording_window.start_recording = c.recording_window.stop_recording)) :
    c.time_is_in_recording_window now st tz = .ok true := by
  have hc : c.is_continuous_recorder = true := by
    unfold DeviceConfig.is_continuous_recorder
    rcases h with h | ⟨h1, h2, h3⟩
    · simp [h]
    · simp [h1, h2, h3]
  unfold DeviceConfig.time_is_in_recording_window
  rw [hc]
  rfl

/-- Claim C5 witness: the degenerate `start=15:04, stop=15:04`
configuration is active at an arbitrary instant. -/
theorem c5_continuous_always_active_witness :
    same_start_end_config.recording_window.start_recording =
      same_start_end_config.recording_window.stop_recording ∧
    same_start_end_config.time_is_in_recording_window 12345 sun_absent 0 = .ok true :=
  ⟨rfl, c5_continuous_always_active same_start_end_config 12345 sun_absent 0
    (Or.inr ⟨rfl, rfl, rfl⟩)⟩

/-- Claim C6 counterexample: the accepted string `"1:30m"` produces an
`AbsRelTime` whose absolute and relative components are both populated
(the trailing unit letter pushes a fresh relative token, which
initializes the relative accumulator to zero), refuting the
exactly-one-variant claim. -/
theorem c6_counterexample_both_variants_populated :
    ∃ t, from_time_abs_or_rel_str "1:30m" = .ok t ∧
      t.absolute_time.isSome = true ∧ t.relative_time_seconds.isSome = true :=
  ⟨⟨some ⟨1, 30⟩, some 0⟩, rfl, rfl, rfl⟩

/-- Claim C6 as amended: every accepted string populates at least one of
the two components — the parser errors when both would be absent — but
mixed colon-and-unit strings can populate both. -/
theorem c6_amended_at_least_one_variant (s : String) (t : AbsRelTime)
    (h : from_time_abs_or_rel_str s = .ok t) :
    t.absolute_time.isSome = true ∨ t.relative_time_seconds.isSome = true := by
  unfold from_time_abs_or_rel_str at h
  split at h
  · exact absurd h (by simp)
  · dsimp only at h
    split at h
    · exact absurd h (by simp)
    · rename_i toks heq h2
      injection h with h
      subst h
      cases hx : (toks.foldl apply_token (none, none)).2 <;>
        cases hy : (toks.foldl apply_token (none, none)).1 <;> simp_all

/-- Claim C6 witness: the amended theorem applied to `"30m"`. -/
theorem c6_amended_at_least_one_variant_witness :
    from_time_abs_or_rel_str "30m" = .ok ⟨none, some 1800⟩ ∧
    ((AbsRelTime.mk none (some 1800)).absolute_time.isSome = true ∨
      (AbsRelTime.mk none (some 1800)).relative_time_seconds.isSome = true) :=
  ⟨rfl, c6_amended_at_least_one_variant "30m" ⟨none, some 1800⟩ rfl⟩

/-- Claim C7 counterexample: the parser performs no range validation on
absolute times: the accepted string `"25:70"` yields hour 25 and
minute 70, refuting the `0..=23` / `0..=59` range claim. -/
theorem c7_counterexample_range_not_validated :
    ∃ hm, from_time_abs_or_rel_str "25:70" = .ok ⟨some hm, none⟩ ∧
      23 < hm.hour ∧ 59 < hm.min :=
  ⟨⟨25, 70⟩, rfl, by norm_num, by norm_num⟩

/-- Claim C7 as amended: the only bound the parser guarantees is the
`u8` truncation (`as u8`): every accepted absolute time has hour and
minute below 256. -/
theorem c7_amended_u8_truncation_bounds (s : String) (t : AbsRelTime) (hm : HourMin)
    (h : from_time_abs_or_rel_str s = .ok t) (ha : t.absolute_time = some hm) :
    hm.hour < 256 ∧ hm.min < 256 := by
  unfold from_time_abs_or_rel_str at h
  split at h
  · exact absurd h (by simp)
  · rename_i toks heq
    dsimp only at h
    split at h
    · exact absurd h (by simp)
    · injection h with h
      subst h
      exact foldl_apply_token_bounded toks (none, none) (by intro hm' heq'; cases heq') hm ha

/-- Claim C7 witness: the amended theorem applied to `"22:10"`. -/
theorem c7_amended_u8_truncation_bounds_witness :
    from_time_abs_or_rel_str "22:10" = .ok ⟨some ⟨22, 10⟩, none⟩ ∧
    (HourMin.mk 22 10).hour < 256 ∧ (HourMin.mk 22 10).min < 256 :=
  ⟨rfl, c7_amended_u8_truncation_bounds "22:10" ⟨some ⟨22, 10⟩, none⟩ ⟨22, 10⟩ rfl rfl⟩

/-- Claim C8 counterexample: the claim predicts `"1:30:45"` parses to
hour 1, minute 30 with the third group ignored; in fact the third group
ends the string with no unit letter assigned (a unit is only attached by
a following colon), falls into the default minutes case of the
accumulator, and overwrites the minute with 45. -/
theorem c8_counterexample_third_group_not_inert :
    ∃ hm, from_time_abs_or_rel_str "1:30:45" = .ok ⟨some hm, none⟩ ∧ hm.min ≠ 30 :=
  ⟨⟨1, 45⟩, rfl, by norm_num⟩

/-- Claim C8 as amended: in colon form the first group sets the hour and
the second the minute, but a trailing third group carries no unit and
overwrites the minute: `"1:30"` yields hour 1 minute 30, while
`"1:30:45"` yields hour 1 minute 45 and `"2:15:59"` yields hour 2
minute 59. -/
theorem c8_amended_third_group_overwrites_minute :
    from_time_abs_or_rel_str "1:30" = .ok ⟨some ⟨1, 30⟩, none⟩ ∧
    from_time_abs_or_rel_str "1:30:45" = .ok ⟨some ⟨1, 45⟩, none⟩ ∧
    from_time_abs_or_rel_str "2:15:59" = .ok ⟨some ⟨2, 59⟩, none⟩ :=
  ⟨rfl, rfl, rfl⟩

/-- Claim C9 counterexample: with an absolute 10:00 start, a relative
-20 hour stop, a location, and the schematic ephemeris, resolution at
noon succeeds but returns the inverted window (122400, 36000): the final
day-boundary shift advances only the absolute start past the relative
end, refuting the start-before-end invariant. -/
theorem c9_counterexample_mixed_window_inverted :
    ∃ w, mixed_inverted_config.next_recording_window 43200 sun_flat 0 = .ok w ∧
      w.2 < w.1 :=
  ⟨(122400, 36000), rfl, by norm_num⟩

/-- Claim C9 as amended: when both bounds are absolute, resolution
always succeeds and the returned window satisfies start ≤ end, for every
`now`, every timezone offset and every ephemeris; with a relative bound
the invariant can fail as in the counterexample. -/
theorem c9_amended_absolute_bounds_ordered (c : DeviceConfig) (now : Int)
    (st : SunTimesFn) (tz : Int)
    (hs : c.recording_window.start_recording.absolute_time.isSome = true)
    (he : c.recording_window.stop_recording.absolute_time.isSome = true) :
    ∃ s e, c.next_recording_window now st tz = .ok (s, e) ∧ s ≤ e := by
  obtain ⟨hm1, h1⟩ := Option.isSome_iff_exists.mp hs
  obtain ⟨hm2, h2⟩ := Option.isSome_iff_exists.mp he
  unfold DeviceConfig.next_recording_window
  rw [time_offset_abs _ _ _ h1, time_offset_abs _ _ _ h2]
  exact next_from_abs_abs _ _ _ _ _ (tmod_day_bounds _) (tmod_day_bounds _)

/-- Claim C9 witness: the amended theorem applied to the wrap-around
configuration. -/
theorem c9_amended_absolute_bounds_ordered_witness :
    wrap_window_config.recording_window.start_recording.absolute_time.isSome = true ∧
    wrap_window_config.recording_window.stop_recording.absolute_time.isSome = true ∧
    ∃ s e, wrap_window_config.next_recording_window 1704193140 sun_absent 46800 =
      .ok (s, e) ∧ s ≤ e :=
  ⟨rfl, rfl,
    c9_amended_absolute_bounds_ordered wrap_window_config 1704193140 sun_absent 46800 rfl rfl⟩

/-- Claim C10: strings made only of allowed characters whose digit run
is not a valid integer are accepted, not rejected: the magnitude parse
failure is silently skipped after the relative accumulator was already
initialized to zero, so `"--5"` and `"5-5"` both parse to a relative
offset of zero seconds. -/
theorem c10_unparsable_magnitude_skipped :
    from_time_abs_or_rel_str "--5" = .ok ⟨none, some 0⟩ ∧
    from_time_abs_or_rel_str "5-5" = .ok ⟨none, some 0⟩ :=
  ⟨rfl, rfl⟩
